import Mathlib

/-!
Verification of the phonebook backend (`src/phonebook/phonebook/app.py`).

The program is a Flask application over a SQLite store with two tables,
`contacts` and `contact_methods`.  We shallowly embed the database state and
each route handler as a pure Lean function translated line by line from the
Python source.  JSON request bodies are embedded as records whose fields are
`Option String` (absent keys become `none`), and Python truthiness of a
`dict.get` result is modelled by `truthyOpt`.

One semantic point is modelled with care: the schema declares
`FOREIGN KEY (contact_id) REFERENCES contacts(id) ON DELETE CASCADE`, but the
application opens every connection with plain `sqlite3.connect` and never
executes `PRAGMA foreign_keys = ON`.  SQLite keeps foreign-key enforcement
disabled by default on every new connection, and Python's `sqlite3` module
does not enable it either, so the declared cascade never fires: a
`DELETE FROM contacts WHERE id = ?` removes only the contact row and leaves
the `contact_methods` rows in place.  `delete_contact` below embeds that
actual behaviour.
-/

namespace Phonebook

/-- A row of the `contacts` table:
`id INTEGER PRIMARY KEY AUTOINCREMENT, name TEXT NOT NULL, address TEXT,
is_favorite INTEGER DEFAULT 0`.  `is_favorite` is an SQLite INTEGER, kept as
`Nat` (the program only ever writes 0 or 1 to it). -/
structure ContactRow where
  id : Nat
  name : String
  address : Option String
  is_favorite : Nat
  deriving DecidableEq, Repr

/-- A row of the `contact_methods` table:
`id INTEGER PRIMARY KEY AUTOINCREMENT, contact_id INTEGER NOT NULL,
method_type TEXT NOT NULL, value TEXT NOT NULL`. -/
structure MethodRow where
  id : Nat
  contact_id : Nat
  method_type : String
  value : String
  deriving DecidableEq, Repr

/-- The database state: the two tables in insertion order together with the
next AUTOINCREMENT id of each table. -/
structure DB where
  contacts : List ContactRow
  methods : List MethodRow
  nextContactId : Nat
  nextMethodId : Nat
  deriving DecidableEq, Repr

/-- The freshly created database: both tables empty, AUTOINCREMENT starting
at 1 (SQLite assigns 1 to the first inserted row). -/
def DB.init : DB := ⟨[], [], 1, 1⟩

/-- One entry of a JSON `methods` array, a dict whose `type` and `value` keys
may each be absent (`m.get('type')` / `m.get('value')` in the source). -/
structure MethodInput where
  type : Option String
  value : Option String
  deriving DecidableEq, Repr

/-- Python's `str.strip()`: remove leading and trailing whitespace.  Defined
by structural recursion over the character list so that concrete instances
reduce inside the kernel. -/
def strip (s : String) : String :=
  ⟨((s.data.dropWhile Char.isWhitespace).reverse.dropWhile Char.isWhitespace).reverse⟩

/-- Python truthiness of `d.get(key)` for a string-valued key: `None` and the
empty string are falsy, every other string is truthy. -/
def truthyOpt : Option String → Bool
  | none => false
  | some s => !(s == "")

/-- The JSON value found under the `methods` key of a request body:
absent key, present but not a JSON array, or an array of entries.
(`data.get('methods', [])` followed by `isinstance(methods, list)` in the
source distinguishes exactly these three shapes.) -/
inductive MethodsField where
  | absent : MethodsField
  | notList : MethodsField
  | list (ms : List MethodInput) : MethodsField
  deriving DecidableEq, Repr

/-- A JSON request body for the create/update routes: `name` and `address`
keys possibly absent, plus the `methods` field. -/
structure Body where
  name : Option String
  address : Option String
  methods : MethodsField
  deriving DecidableEq, Repr

/-- `data.get('methods', [])`: an absent key yields the empty list, any
present value is kept as is. -/
def getMethods (body : Body) : MethodsField :=
  match body.methods with
  | .absent => .list []
  | f => f

/-- The JSON object a successful create/update responds with:
`{id, name, address, is_favorite, methods}` where `methods` is the raw input
list echoed back. -/
structure ContactView where
  id : Nat
  name : String
  address : Option String
  is_favorite : Bool
  methods : List MethodInput
  deriving DecidableEq, Repr

/-- The error responses of the application: the 400 validation errors (with
the Chinese message the source uses) and the 404 `联系人不存在` response. -/
inductive ApiError where
  | validationError (msg : String) : ApiError
  | notFoundError : ApiError
  deriving DecidableEq, Repr

/-- `INSERT INTO contacts (name, address) VALUES (?, ?)`: appends a row with
the next AUTOINCREMENT id and the column default `is_favorite = 0`. -/
def insertContact (db : DB) (name : String) (address : Option String) : DB :=
  { db with
    contacts := db.contacts ++ [⟨db.nextContactId, name, address, 0⟩]
    nextContactId := db.nextContactId + 1 }

/-- `INSERT INTO contact_methods (contact_id, method_type, value)
VALUES (?, ?, ?)`. -/
def insertMethod (db : DB) (cid : Nat) (t v : String) : DB :=
  { db with
    methods := db.methods ++ [⟨db.nextMethodId, cid, t, v⟩]
    nextMethodId := db.nextMethodId + 1 }

/-- The `for m in methods: if m.get('type') and m.get('value'): INSERT ...`
loop of `update_contact`: inserts, in order, every entry whose `type` and
`value` are both present and non-empty, skipping the rest. -/
def insertValidMethods (db : DB) (cid : Nat) : List MethodInput → DB
  | [] => db
  | m :: rest =>
    if truthyOpt m.type && truthyOpt m.value then
      insertValidMethods (insertMethod db cid (m.type.getD "") (m.value.getD "")) cid rest
    else
      insertValidMethods db cid rest

/-- The unconditional `for m in methods: INSERT ...` loop of `add_contact`
(run only after every entry has been validated). -/
def insertAllMethods (db : DB) (cid : Nat) : List MethodInput → DB
  | [] => db
  | m :: rest =>
    insertAllMethods (insertMethod db cid (m.type.getD "") (m.value.getD "")) cid rest

/-- `SELECT 1 FROM contacts WHERE id = ?` / `SELECT is_favorite FROM contacts
WHERE id = ?` with `fetchone()`: the first row of the table matching the id,
if any. -/
def findContact (db : DB) (cid : Nat) : Option ContactRow :=
  db.contacts.find? (fun c => c.id == cid)

/-- `POST /contacts` (`add_contact` in the source).  Returns the resulting
database state together with either the created contact view or the error
response.  All validation happens before the connection is opened, so every
error branch leaves the state unchanged. -/
def add_contact (body : Body) (db : DB) : DB × Except ApiError ContactView :=
  let name := strip (body.name.getD "")
  let address := body.address.map strip
  let methods := getMethods body
  if name = "" then
    (db, .error (.validationError "姓名不能为空"))
  else
    match methods with
    | .absent => (db, .error (.validationError "至少需要一个联系方式"))
    | .notList => (db, .error (.validationError "至少需要一个联系方式"))
    | .list ms =>
      if ms.length = 0 then
        (db, .error (.validationError "至少需要一个联系方式"))
      else
        match ms.find? (fun m => !(truthyOpt m.type && truthyOpt m.value)) with
        | some _ => (db, .error (.validationError "每个联系方式必须包含 type 和 value"))
        | none =>
          let cid := db.nextContactId
          let db1 := insertContact db name address
          let db2 := insertAllMethods db1 cid ms
          (db2, .ok ⟨cid, name, address, false, ms⟩)

/-- `PUT /contacts/<id>` (`update_contact` in the source).  Note the returned
view's `is_favorite` field: the source computes `bool(exists)` where `exists`
is the non-empty row `(1,)` fetched by `SELECT 1 FROM contacts WHERE id = ?`,
so on the success path it is the constant `True`, independent of the stored
`is_favorite` column. -/
def update_contact (cid : Nat) (body : Body) (db : DB) : DB × Except ApiError ContactView :=
  let name := strip (body.name.getD "")
  let address := body.address.map strip
  let methods := getMethods body
  if name = "" then
    (db, .error (.validationError "姓名不能为空"))
  else
    match methods with
    | .absent => (db, .error (.validationError "methods 必须是数组"))
    | .notList => (db, .error (.validationError "methods 必须是数组"))
    | .list ms =>
      match findContact db cid with
      | none => (db, .error .notFoundError)
      | some _ =>
        let db1 := { db with
          contacts := db.contacts.map (fun c : ContactRow =>
            if c.id == cid then { c with name := name, address := address } else c) }
        let db2 := { db1 with
          methods := db1.methods.filter (fun r => !(r.contact_id == cid)) }
        let db3 := insertValidMethods db2 cid ms
        (db3, .ok ⟨cid, name, address, true, ms⟩)

/-- `DELETE /contacts/<id>` (`delete_contact` in the source).
`DELETE FROM contacts WHERE id = ?` removes the matching contact rows only:
with `PRAGMA foreign_keys` at its default OFF the declared
`ON DELETE CASCADE` is not enforced, so `contact_methods` is untouched.
`cursor.rowcount > 0` decides between the success and the 404 response. -/
def delete_contact (cid : Nat) (db : DB) : DB × Except ApiError Unit :=
  let remaining := db.contacts.filter (fun c => !(c.id == cid))
  let db' := { db with contacts := remaining }
  if remaining.length = db.contacts.length then
    (db', .error .notFoundError)
  else
    (db', .ok ())

/-- `PUT /contacts/<id>/favorite` (`toggle_favorite` in the source): reads
the first matching row's `is_favorite`, writes `0 if it == 1 else 1` back to
every row with that id, and responds with `bool(new_status)`. -/
def toggle_favorite (cid : Nat) (db : DB) : DB × Except ApiError Bool :=
  match findContact db cid with
  | none => (db, .error .notFoundError)
  | some row =>
    let new_status : Nat := if row.is_favorite == 1 then 0 else 1
    let db' := { db with
      contacts := db.contacts.map (fun c : ContactRow =>
        if c.id == cid then { c with is_favorite := new_status } else c) }
    (db', .ok (new_status != 0))

/-- One parsed CSV data row as produced by `csv.DictReader`: the values under
the four required headers, `none` when the physical row is too short
(`row.get(...)` then yields `None`). -/
structure CsvRow where
  name : Option String
  phone : Option String
  email : Option String
  address : Option String
  deriving DecidableEq, Repr

/-- The body of the `for row in reader:` loop of `import_contacts`: skip the
row if the trimmed name is empty, otherwise insert one contact (empty address
stored as NULL via `address or None`) and one method per non-empty
phone/email/address, and bump the counter. -/
def importRow (db : DB) (count : Nat) (r : CsvRow) : DB × Nat :=
  let name := strip (r.name.getD "")
  if name = "" then
    (db, count)
  else
    let phone := strip (r.phone.getD "")
    let email := strip (r.email.getD "")
    let address := strip (r.address.getD "")
    let cid := db.nextContactId
    let db1 := insertContact db name (if address = "" then none else some address)
    let db2 := if phone ≠ "" then insertMethod db1 cid "phone" phone else db1
    let db3 := if email ≠ "" then insertMethod db2 cid "email" email else db2
    let db4 := if address ≠ "" then insertMethod db3 cid "address" address else db3
    (db4, count + 1)

/-- The whole row loop of `import_contacts`, threading the database and the
running count through `importRow`. -/
def importRows (db : DB) (count : Nat) : List CsvRow → DB × Nat
  | [] => (db, count)
  | r :: rest =>
    let p := importRow db count r
    importRows p.1 p.2 rest

/-- `POST /contacts/import` after file, encoding and header validation: runs
the row loop starting from count 0 and reports the final count. -/
def import_contacts (db : DB) (rows : List CsvRow) : DB × Nat :=
  importRows db 0 rows

/-- The write operations of the service, for stating reachability. -/
inductive Op where
  | create (body : Body) : Op
  | update (cid : Nat) (body : Body) : Op
  | del (cid : Nat) : Op
  | toggle (cid : Nat) : Op
  | importCsv (rows : List CsvRow) : Op

/-- The state reached by one operation (responses discarded). -/
def applyOp (db : DB) : Op → DB
  | .create body => (add_contact body db).1
  | .update cid body => (update_contact cid body db).1
  | .del cid => (delete_contact cid db).1
  | .toggle cid => (toggle_favorite cid db).1
  | .importCsv rows => (import_contacts db rows).1

/-- The state reached from `db` by a sequence of operations. -/
def runOps (db : DB) : List Op → DB
  | [] => db
  | op :: rest => runOps (applyOp db op) rest

/-- The methods stored for a contact, as (type, value) pairs:
`SELECT method_type, value FROM contact_methods WHERE contact_id = ?`. -/
def methodPairs (db : DB) (cid : Nat) : List (String × String) :=
  (db.methods.filter (fun r => r.contact_id == cid)).map (fun r => (r.method_type, r.value))

/-- A method row is orphaned when no contact row carries its `contact_id`. -/
def hasOrphan (db : DB) : Bool :=
  db.methods.any (fun m => !(db.contacts.any (fun c => c.id == m.contact_id)))

/-- Every stored favorite flag is one of the two values the program ever
writes (0 at insertion, 0/1 at toggle). -/
def favOk (db : DB) : Prop :=
  ∀ c ∈ db.contacts, c.is_favorite = 0 ∨ c.is_favorite = 1

/-- An input method entry passes the `m.get('type') and m.get('value')`
test. -/
def validEntry (m : MethodInput) : Bool :=
  truthyOpt m.type && truthyOpt m.value

end Phonebook

namespace Phonebook

/-- The (contact_id, method_type, value) content of a method row, ignoring
the row's AUTOINCREMENT id. -/
def trip (r : MethodRow) : Nat × String × String :=
  (r.contact_id, r.method_type, r.value)

/-- `insertValidMethods` touches only the `contact_methods` table. -/
theorem insertValidMethods_contacts (cid : Nat) (ms : List MethodInput) (db : DB) :
    (insertValidMethods db cid ms).contacts = db.contacts := by
  induction ms generalizing db with
  | nil => rfl
  | cons m rest ih =>
    simp only [insertValidMethods]
    split
    · exact ih _
    · exact ih _

/-- `insertAllMethods` touches only the `contact_methods` table. -/
theorem insertAllMethods_contacts (cid : Nat) (ms : List MethodInput) (db : DB) :
    (insertAllMethods db cid ms).contacts = db.contacts := by
  induction ms generalizing db with
  | nil => rfl
  | cons m rest ih => exact ih _

/-- Inserting a method for `cid` appends one (type, value) pair to the
methods selected for `cid`. -/
theorem methodPairs_insertMethod_same (db : DB) (cid : Nat) (t v : String) :
    methodPairs (insertMethod db cid t v) cid = methodPairs db cid ++ [(t, v)] := by
  simp [methodPairs, insertMethod, List.filter_append]

/-- The methods stored for `cid` after the update-route insertion loop:
what was there before, followed by the valid entries in input order. -/
theorem methodPairs_insertValidMethods (cid : Nat) (ms : List MethodInput) (db : DB) :
    methodPairs (insertValidMethods db cid ms) cid =
      methodPairs db cid ++
        (ms.filter validEntry).map (fun m => (m.type.getD "", m.value.getD "")) := by
  induction ms generalizing db with
  | nil => simp [insertValidMethods]
  | cons m rest ih =>
    simp only [insertValidMethods]
    by_cases h : (truthyOpt m.type && truthyOpt m.value) = true
    · rw [if_pos h, ih, methodPairs_insertMethod_same]
      simp [List.filter_cons, validEntry, h]
    · rw [if_neg h, ih]
      simp [List.filter_cons, validEntry, h]

/-- Rows that survive `DELETE FROM contact_methods WHERE contact_id = ?`
never match that contact id again. -/
theorem filter_erase_all (l : List MethodRow) (cid : Nat) :
    ((l.filter (fun r => !(r.contact_id == cid))).filter
      (fun r => r.contact_id == cid)) = [] := by
  induction l with
  | nil => rfl
  | cons a t ih =>
    by_cases h : (a.contact_id == cid) = true <;>
      simp [List.filter_cons, h, ih]

/-- `find?` over a list transformed by an id-preserving row function. -/
theorem find_map_id (l : List ContactRow) (cid : Nat) (f : ContactRow → ContactRow)
    (hf : ∀ c, (f c).id = c.id) :
    (l.map f).find? (fun c => c.id == cid) = (l.find? (fun c => c.id == cid)).map f := by
  induction l with
  | nil => rfl
  | cons a t ih =>
    simp only [List.map_cons, List.find?]
    rw [hf a]
    cases h : a.id == cid <;> simp [h, ih]

end Phonebook

namespace Phonebook

/-- `favOk` only looks at the `contacts` table. -/
theorem favOk_of_contacts_eq {db1 db2 : DB} (e : db1.contacts = db2.contacts)
    (h : favOk db1) : favOk db2 := by
  intro c hc
  exact h c (e ▸ hc)

/-- A contact row inserted by the program carries `is_favorite = 0`. -/
theorem favOk_insertContact (db : DB) (n : String) (a : Option String)
    (h : favOk db) : favOk (insertContact db n a) := by
  intro c hc
  simp only [insertContact, List.mem_append, List.mem_singleton] at hc
  rcases hc with hc | hc
  · exact h c hc
  · subst hc
    exact Or.inl rfl

/-- An update that rewrites rows without touching `is_favorite` preserves
`favOk`. -/
theorem favOk_map_same_fav (db : DB) (f : ContactRow → ContactRow)
    (hf : ∀ c, (f c).is_favorite = c.is_favorite) (h : favOk db) :
    favOk { db with contacts := db.contacts.map f } := by
  intro c hc
  simp only [List.mem_map] at hc
  obtain ⟨a, ha, rfl⟩ := hc
  rw [hf a]
  exact h a ha

/-- An update that writes a fixed value 0 or 1 into `is_favorite` of some
rows preserves `favOk`. -/
theorem favOk_map_set_fav (db : DB) (cid ns : Nat) (hns : ns = 0 ∨ ns = 1)
    (h : favOk db) :
    favOk { db with contacts := db.contacts.map (fun c : ContactRow =>
      if c.id == cid then { c with is_favorite := ns } else c) } := by
  intro c hc
  simp only [List.mem_map] at hc
  obtain ⟨a, ha, rfl⟩ := hc
  by_cases hid : (a.id == cid) = true
  · simp only [hid, if_true]
    exact hns
  · simp only [hid]
    simp only [Bool.false_eq_true, if_false]
    exact h a ha

/-- `add_contact` preserves `favOk`. -/
theorem favOk_add_contact (body : Body) (db : DB) (h : favOk db) :
    favOk (add_contact body db).1 := by
  simp only [add_contact]
  split
  · exact h
  · split
    · exact h
    · exact h
    · split
      · exact h
      · split
        · exact h
        · exact favOk_of_contacts_eq
            ((insertAllMethods_contacts _ _ _).symm)
            (favOk_insertContact _ _ _ h)

/-- `update_contact` preserves `favOk`. -/
theorem favOk_update_contact (cid : Nat) (body : Body) (db : DB) (h : favOk db) :
    favOk (update_contact cid body db).1 := by
  simp only [update_contact]
  split
  · exact h
  · split
    · exact h
    · exact h
    · split
      · exact h
      · refine favOk_of_contacts_eq ((insertValidMethods_contacts _ _ _).symm) ?_
        exact favOk_map_same_fav _ _ (fun c => by by_cases hid : (c.id == cid) = true <;> simp [hid]) h

/-- `delete_contact` preserves `favOk`. -/
theorem favOk_delete_contact (cid : Nat) (db : DB) (h : favOk db) :
    favOk (delete_contact cid db).1 := by
  simp only [delete_contact]
  split <;>
  · intro c hc
    exact h c (List.mem_of_mem_filter hc)

/-- `toggle_favorite` preserves `favOk` (it writes only 0 or 1). -/
theorem favOk_toggle_favorite (cid : Nat) (db : DB) (h : favOk db) :
    favOk (toggle_favorite cid db).1 := by
  simp only [toggle_favorite]
  split
  · exact h
  · refine favOk_map_set_fav _ _ _ ?_ h
    split
    · exact Or.inl rfl
    · exact Or.inr rfl

/-- A row whose name trims to the empty string is skipped: no insert, no
count. -/
theorem importRow_skip (db : DB) (count : Nat) (r : CsvRow)
    (h : strip (r.name.getD "") = "") : importRow db count r = (db, count) := by
  simp [importRow, h]

/-- A row with a non-empty trimmed name appends exactly one contact row, with
favorite 0 and the empty address stored as NULL. -/
theorem importRow_contacts (db : DB) (count : Nat) (r : CsvRow)
    (h : strip (r.name.getD "") ≠ "") :
    (importRow db count r).1.contacts = db.contacts ++
      [⟨db.nextContactId, strip (r.name.getD ""),
        (if strip (r.address.getD "") = "" then none
         else some (strip (r.address.getD ""))), 0⟩] := by
  simp only [importRow]
  rw [if_neg h]
  split <;> split <;> split <;> rfl

/-- A row with a non-empty trimmed name is counted exactly once. -/
theorem importRow_count (db : DB) (count : Nat) (r : CsvRow)
    (h : strip (r.name.getD "") ≠ "") : (importRow db count r).2 = count + 1 := by
  simp only [importRow]
  rw [if_neg h]

/-- A row with a non-empty trimmed name appends one method row per non-empty
phone, email and address value, owned by the new contact id. -/
theorem importRow_methods (db : DB) (count : Nat) (r : CsvRow)
    (h : strip (r.name.getD "") ≠ "") :
    (importRow db count r).1.methods.map trip = db.methods.map trip ++
      ((if strip (r.phone.getD "") = "" then []
        else [(db.nextContactId, "phone", strip (r.phone.getD ""))]) ++
       (if strip (r.email.getD "") = "" then []
        else [(db.nextContactId, "email", strip (r.email.getD ""))]) ++
       (if strip (r.address.getD "") = "" then []
        else [(db.nextContactId, "address", strip (r.address.getD ""))])) := by
  simp only [importRow]
  rw [if_neg h]
  by_cases hp : strip (r.phone.getD "") = "" <;>
    by_cases he : strip (r.email.getD "") = "" <;>
      by_cases ha : strip (r.address.getD "") = "" <;>
        simp [hp, he, ha, insertMethod, insertContact, trip]

/-- One CSV row preserves `favOk` (the inserted contact has favorite 0). -/
theorem favOk_importRow (db : DB) (count : Nat) (r : CsvRow) (h : favOk db) :
    favOk (importRow db count r).1 := by
  by_cases hn : strip (r.name.getD "") = ""
  · rw [importRow_skip db count r hn]
    exact h
  · exact favOk_of_contacts_eq (importRow_contacts db count r hn).symm
      (favOk_insertContact db _ _ h)

/-- The CSV row loop preserves `favOk`. -/
theorem favOk_importRows (rows : List CsvRow) :
    ∀ (db : DB) (count : Nat), favOk db → favOk (importRows db count rows).1 := by
  induction rows with
  | nil => exact fun db count h => h
  | cons r rest ih =>
    intro db count h
    exact ih _ _ (favOk_importRow db count r h)

/-- Every single operation preserves `favOk`. -/
theorem favOk_applyOp (db : DB) (op : Op) (h : favOk db) : favOk (applyOp db op) := by
  cases op with
  | create body => exact favOk_add_contact body db h
  | update cid body => exact favOk_update_contact cid body db h
  | del cid => exact favOk_delete_contact cid db h
  | toggle cid => exact favOk_toggle_favorite cid db h
  | importCsv rows => exact favOk_importRows rows db 0 h

/-- Every state the program can reach stores only 0/1 favorite flags. -/
theorem favOk_reachable (ops : List Op) : favOk (runOps DB.init ops) := by
  have go : ∀ (l : List Op) (db : DB), favOk db → favOk (runOps db l) := by
    intro l
    induction l with
    | nil => exact fun db h => h
    | cons op rest ih => exact fun db h => ih _ (favOk_applyOp db op h)
  exact go ops DB.init (by intro c hc; cases hc)

end Phonebook

namespace Phonebook

/-- The row loop counts exactly the rows whose trimmed name is non-empty. -/
theorem importRows_count (rows : List CsvRow) :
    ∀ (db : DB) (count : Nat),
      (importRows db count rows).2 =
        count + (rows.filter (fun r => !(strip (r.name.getD "") == ""))).length := by
  induction rows with
  | nil => intro db count; simp [importRows]
  | cons r rest ih =>
    intro db count
    simp only [importRows]
    by_cases hn : strip (r.name.getD "") = ""
    · rw [importRow_skip db count r hn, ih]
      have hb : (strip (r.name.getD "") == "") = true := beq_iff_eq.mpr hn
      simp [List.filter_cons, hb]
    · rw [ih, importRow_count db count r hn]
      have hb : (strip (r.name.getD "") == "") = false := beq_eq_false_iff_ne.mpr hn
      simp [List.filter_cons, hb]
      omega

/-- The success path of `update_contact`: the response echoes the raw input,
the stored methods for the contact become exactly the valid entries, and the
contact row keeps everything except the overwritten name and address. -/
theorem update_contact_success (cid : Nat) (body : Body) (db : DB)
    (ms : List MethodInput) (hm : getMethods body = .list ms)
    (hname : strip (body.name.getD "") ≠ "")
    (c₀ : ContactRow) (hc : findContact db cid = some c₀) :
    (update_contact cid body db).2 =
      .ok ⟨cid, strip (body.name.getD ""), body.address.map strip, true, ms⟩ ∧
    methodPairs (update_contact cid body db).1 cid =
      (ms.filter validEntry).map (fun m => (m.type.getD "", m.value.getD "")) ∧
    findContact (update_contact cid body db).1 cid =
      some { c₀ with name := strip (body.name.getD ""),
                     address := body.address.map strip } := by
  have hc' : db.contacts.find? (fun c => c.id == cid) = some c₀ := hc
  have hid : (c₀.id == cid) = true := by
    have h := List.find?_some hc'
    simpa using h
  simp only [update_contact, hm, hc]
  rw [if_neg hname]
  refine ⟨rfl, ?_, ?_⟩
  · rw [methodPairs_insertValidMethods]
    simp [methodPairs, filter_erase_all]
  · show findContact (insertValidMethods _ cid ms) cid = _
    simp only [findContact, insertValidMethods_contacts]
    rw [find_map_id _ _ _ (fun c => by by_cases h : (c.id == cid) = true <;> simp [h])]
    simp only [findContact] at hc
    rw [hc]
    simp [hid]
    exact fun h => absurd (beq_iff_eq.mp hid) h

end Phonebook

namespace Phonebook

/-- Unfolding `toggle_favorite` on an existing contact. -/
theorem toggle_favorite_found (cid : Nat) (db : DB) (c : ContactRow)
    (hc : findContact db cid = some c) :
    (toggle_favorite cid db).1 =
      { db with contacts := db.contacts.map (fun x : ContactRow =>
          if x.id == cid then
            { x with is_favorite := if c.is_favorite == 1 then 0 else 1 }
          else x) } := by
  simp only [toggle_favorite, hc]

/-- `findContact` after rewriting `is_favorite` on the selected rows. -/
theorem findContact_map_fav (db : DB) (cid ns : Nat) :
    findContact { db with contacts := db.contacts.map (fun x : ContactRow =>
      if x.id == cid then { x with is_favorite := ns } else x) } cid =
    (findContact db cid).map (fun x : ContactRow =>
      if x.id == cid then { x with is_favorite := ns } else x) := by
  simp only [findContact]
  exact find_map_id _ _ _
    (fun x => by by_cases h : (x.id == cid) = true <;> simp [h])

/-- Two toggles restore the row fetched for a contact whose stored flag is
0 or 1. -/
theorem toggle_toggle_find (cid : Nat) (db : DB) (c : ContactRow)
    (hc : findContact db cid = some c)
    (hfav : c.is_favorite = 0 ∨ c.is_favorite = 1) :
    findContact (toggle_favorite cid (toggle_favorite cid db).1).1 cid = some c := by
  have hc' : db.contacts.find? (fun x => x.id == cid) = some c := hc
  have hid : (c.id == cid) = true := by simpa using List.find?_some hc'
  rw [toggle_favorite_found cid db c hc]
  have h1 : findContact { db with contacts := db.contacts.map (fun x : ContactRow =>
      if x.id == cid then
        { x with is_favorite := if c.is_favorite == 1 then 0 else 1 }
      else x) } cid =
      some { c with is_favorite := if c.is_favorite == 1 then 0 else 1 } := by
    rw [findContact_map_fav, hc]
    simp [hid]
    exact fun h => absurd (beq_iff_eq.mp hid) h
  rw [toggle_favorite_found cid _ _ h1]
  rw [findContact_map_fav, findContact_map_fav, hc]
  rcases hfav with h | h <;>
    · cases c with
      | mk i n a f =>
        simp only at h
        subst h
        have hcid : i = cid := by simpa using hid
        subst hcid
        simp

/-- Claim C7: on any reachable state, toggling an existing contact twice
restores the contact row fetched before (in particular its original
`is_favorite` value), and toggling a non-existent id returns `NotFoundError`
with the state unchanged. -/
theorem toggle_twice_restores (cid : Nat) :
    (∀ (ops : List Op) (c : ContactRow),
      findContact (runOps DB.init ops) cid = some c →
      findContact (toggle_favorite cid
        (toggle_favorite cid (runOps DB.init ops)).1).1 cid = some c) ∧
    (∀ db : DB, findContact db cid = none →
      toggle_favorite cid db = (db, .error .notFoundError)) := by
  constructor
  · intro ops c hc
    have hfav : c.is_favorite = 0 ∨ c.is_favorite = 1 :=
      favOk_reachable ops c (List.mem_of_find?_eq_some hc)
    exact toggle_toggle_find cid _ c hc hfav
  · intro db hdb
    simp [toggle_favorite, hdb]

end Phonebook

namespace Phonebook

/-- The success path of `add_contact`: the response carries the fresh id,
favorite false, and the input entries echoed. -/
theorem add_contact_success (body : Body) (db : DB) (ms : List MethodInput)
    (hm : getMethods body = .list ms) (hname : strip (body.name.getD "") ≠ "")
    (hne : ms ≠ []) (hval : ∀ m ∈ ms, validEntry m = true) :
    (add_contact body db).2 =
      .ok ⟨db.nextContactId, strip (body.name.getD ""),
           body.address.map strip, false, ms⟩ := by
  have hlen : ¬ ms.length = 0 := by
    cases ms with
    | nil => exact absurd rfl hne
    | cons a t => simp
  have hfind : ms.find? (fun m => !(truthyOpt m.type && truthyOpt m.value)) = none := by
    rw [List.find?_eq_none]
    intro m hmem
    have h := hval m hmem
    simp only [validEntry] at h
    simp [h]
  simp only [add_contact, hm, hfind]
  rw [if_neg hname, if_neg hlen]

/-- Claim C6: for every valid create input (non-empty trimmed name,
non-empty method list, every entry with non-empty type and value) the
returned contact has `is_favorite = false` and echoes as many methods as
were supplied. -/
theorem create_valid_unfavorited_echo (body : Body) (db : DB)
    (ms : List MethodInput) (hm : body.methods = .list ms)
    (hname : strip (body.name.getD "") ≠ "") (hne : ms ≠ [])
    (hval : ∀ m ∈ ms, validEntry m = true) :
    ∃ v, (add_contact body db).2 = .ok v ∧ v.is_favorite = false ∧
      v.methods.length = ms.length := by
  have hm' : getMethods body = .list ms := by simp [getMethods, hm]
  exact ⟨_, add_contact_success body db ms hm' hname hne hval, rfl, rfl⟩

/-- Claim C5: create fails with a `ValidationError` — leaving the store
untouched — whenever the trimmed name is empty, the methods field is absent,
not an array or the empty array, or some entry lacks a non-empty type or
value. -/
theorem create_invalid_rejected (body : Body) (db : DB)
    (h : strip (body.name.getD "") = "" ∨ body.methods = .absent ∨
      body.methods = .notList ∨ body.methods = .list [] ∨
      (∃ ms m, body.methods = .list ms ∧ m ∈ ms ∧ validEntry m = false)) :
    (∃ msg, (add_contact body db).2 = .error (.validationError msg)) ∧
    (add_contact body db).1 = db := by
  by_cases hn : strip (body.name.getD "") = ""
  · exact ⟨⟨"姓名不能为空", by simp [add_contact, hn]⟩, by simp [add_contact, hn]⟩
  · rcases h with h | h | h | h | ⟨ms, m, hms, hmem, hbad⟩
    · exact absurd h hn
    · have hm' : getMethods body = .list [] := by simp [getMethods, h]
      exact ⟨⟨"至少需要一个联系方式", by simp [add_contact, hm', hn]⟩,
        by simp [add_contact, hm', hn]⟩
    · have hm' : getMethods body = .notList := by simp [getMethods, h]
      exact ⟨⟨"至少需要一个联系方式", by simp [add_contact, hm', hn]⟩,
        by simp [add_contact, hm', hn]⟩
    · have hm' : getMethods body = .list [] := by simp [getMethods, h]
      exact ⟨⟨"至少需要一个联系方式", by simp [add_contact, hm', hn]⟩,
        by simp [add_contact, hm', hn]⟩
    · have hm' : getMethods body = .list ms := by simp [getMethods, hms]
      have hlen : ¬ ms.length = 0 := by
        cases ms with
        | nil => cases hmem
        | cons a t => simp
      obtain ⟨x, hx⟩ : ∃ x,
          ms.find? (fun m => !(truthyOpt m.type && truthyOpt m.value)) = some x := by
        cases hfind0 : ms.find? (fun m => !(truthyOpt m.type && truthyOpt m.value)) with
        | some x => exact ⟨x, rfl⟩
        | none =>
          rw [List.find?_eq_none] at hfind0
          have hm0 := hfind0 m hmem
          simp only [validEntry] at hbad
          simp [hbad] at hm0
      have hgoal : add_contact body db =
          (db, .error (.validationError "每个联系方式必须包含 type 和 value")) := by
        simp only [add_contact, hm', hx]
        rw [if_neg hn, if_neg hlen]
      exact ⟨⟨"每个联系方式必须包含 type 和 value", by rw [hgoal]⟩, by rw [hgoal]⟩

/-- Claim C4: a valid update on an existing contact makes the stored method
set exactly the supplied entries carrying a non-empty type and value
(malformed ones are skipped, old methods are gone, the empty list clears
all), while name and address are still rewritten. -/
theorem update_replaces_methods (cid : Nat) (body : Body) (db : DB)
    (ms : List MethodInput) (hm : body.methods = .list ms)
    (hname : strip (body.name.getD "") ≠ "")
    (hex : (findContact db cid).isSome = true) :
    ∃ v, (update_contact cid body db).2 = .ok v ∧
      methodPairs (update_contact cid body db).1 cid =
        (ms.filter validEntry).map (fun m => (m.type.getD "", m.value.getD "")) ∧
      ∃ c, findContact (update_contact cid body db).1 cid = some c ∧
        c.name = strip (body.name.getD "") ∧
        c.address = body.address.map strip := by
  obtain ⟨c₀, hc⟩ := Option.isSome_iff_exists.mp hex
  have hm' : getMethods body = .list ms := by simp [getMethods, hm]
  obtain ⟨h1, h2, h3⟩ := update_contact_success cid body db ms hm' hname c₀ hc
  exact ⟨_, h1, h2, _, h3, rfl, rfl⟩

/-- Claim C9: an update body with no `methods` key at all passes validation
(the absent key defaults to the empty list), the update succeeds, and every
previously stored method of the contact is deleted. -/
theorem update_absent_methods_clears (cid : Nat) (body : Body) (db : DB)
    (hm : body.methods = .absent)
    (hname : strip (body.name.getD "") ≠ "")
    (hex : (findContact db cid).isSome = true) :
    (∃ v, (update_contact cid body db).2 = .ok v) ∧
    methodPairs (update_contact cid body db).1 cid = [] := by
  obtain ⟨c₀, hc⟩ := Option.isSome_iff_exists.mp hex
  have hm' : getMethods body = .list [] := by simp [getMethods, hm]
  obtain ⟨h1, h2, h3⟩ := update_contact_success cid body db [] hm' hname c₀ hc
  refine ⟨⟨_, h1⟩, ?_⟩
  simpa using h2

/-- Claim C10: a successful update responds with the raw input method list,
malformed entries included, while the store keeps only the valid ones — the
response can therefore differ from what is persisted. -/
theorem update_echoes_raw_methods (cid : Nat) (body : Body) (db : DB)
    (ms : List MethodInput) (hm : body.methods = .list ms)
    (hname : strip (body.name.getD "") ≠ "")
    (hex : (findContact db cid).isSome = true) :
    ∃ v, (update_contact cid body db).2 = .ok v ∧ v.methods = ms ∧
      methodPairs (update_contact cid body db).1 cid =
        (ms.filter validEntry).map (fun m => (m.type.getD "", m.value.getD "")) := by
  obtain ⟨c₀, hc⟩ := Option.isSome_iff_exists.mp hex
  have hm' : getMethods body = .list ms := by simp [getMethods, hm]
  obtain ⟨h1, h2, h3⟩ := update_contact_success cid body db ms hm' hname c₀ hc
  exact ⟨_, h1, rfl, h2⟩

/-- Claim C8: the CSV row loop skips exactly the rows whose trimmed name is
empty, inserts for every other row one contact (with favorite 0 and the
empty address stored as NULL) plus one method per non-empty phone, email and
address — a non-empty address landing both in the contact row and in an
"address"-typed method — and reports the number of non-skipped rows. -/
theorem import_rows_spec :
    (∀ (db : DB) (rows : List CsvRow),
      (import_contacts db rows).2 =
        (rows.filter (fun r => !(strip (r.name.getD "") == ""))).length) ∧
    (∀ (db : DB) (count : Nat) (r : CsvRow),
      strip (r.name.getD "") = "" → importRow db count r = (db, count)) ∧
    (∀ (db : DB) (count : Nat) (r : CsvRow),
      strip (r.name.getD "") ≠ "" →
        (importRow db count r).2 = count + 1 ∧
        (importRow db count r).1.contacts = db.contacts ++
          [⟨db.nextContactId, strip (r.name.getD ""),
            (if strip (r.address.getD "") = "" then none
             else some (strip (r.address.getD ""))), 0⟩] ∧
        (importRow db count r).1.methods.map trip = db.methods.map trip ++
          ((if strip (r.phone.getD "") = "" then []
            else [(db.nextContactId, "phone", strip (r.phone.getD ""))]) ++
           (if strip (r.email.getD "") = "" then []
            else [(db.nextContactId, "email", strip (r.email.getD ""))]) ++
           (if strip (r.address.getD "") = "" then []
            else [(db.nextContactId, "address", strip (r.address.getD ""))]))) := by
  refine ⟨?_, importRow_skip, ?_⟩
  · intro db rows
    have h := importRows_count rows db 0
    simpa [import_contacts] using h
  · intro db count r h
    exact ⟨importRow_count db count r h, importRow_contacts db count r h,
      importRow_methods db count r h⟩

end Phonebook

namespace Phonebook

/-- A valid create request: two well-formed methods. -/
def exMs : List MethodInput := [⟨some "phone", some "555"⟩, ⟨some "email", some "a@x"⟩]

/-- A valid create body. -/
def exCreate : Body := ⟨some "Alice", some "1 Main St", .list exMs⟩

/-- The store after creating Alice in a fresh database: contact 1 with
favorite 0 and two method rows. -/
def exDb : DB := (add_contact exCreate DB.init).1

/-- A valid update body for contact 1. -/
def updBody : Body := ⟨some "Alice", some "1 Main St", .list [⟨some "phone", some "777"⟩]⟩

/-- An update body mixing one valid and one malformed method entry. -/
def mixBody : Body := ⟨some "Alice2", none,
  .list [⟨some "phone", some "777"⟩, ⟨some "bad", none⟩]⟩

/-- An update body whose `methods` key is missing entirely. -/
def absBody : Body := ⟨some "Alice3", some "X", .absent⟩

/-- A create body with a method entry lacking a value. -/
def badBody : Body := ⟨some "Bob", none, .list [⟨some "phone", none⟩]⟩

/-- Claim C1 is refuted by the code: updating contact 1, whose stored
`is_favorite` is 0, returns a view with `is_favorite = true` — the source
returns `bool(exists)` where `exists` is the `(1,)` row of the
`SELECT 1` existence check, which is always truthy — while the stored flag
stays 0. -/
theorem update_view_favorite_is_existence_flag :
    (update_contact 1 updBody exDb).2.toOption.map ContactView.is_favorite = some true ∧
    (findContact (update_contact 1 updBody exDb).1 1).map ContactRow.is_favorite =
      some 0 := by
  exact ⟨rfl, rfl⟩

/-- Claim C2 is refuted by the code: deleting contact 1 removes the contact
row and reports success, yet both of its method rows survive, because the
application never issues `PRAGMA foreign_keys = ON` and SQLite therefore
never enforces the declared `ON DELETE CASCADE`.  Deleting a missing id
still returns `NotFoundError` with the state unchanged. -/
theorem delete_leaves_method_rows :
    (delete_contact 1 exDb).2 = .ok () ∧
    (delete_contact 1 exDb).1.contacts = [] ∧
    (delete_contact 1 exDb).1.methods = exDb.methods ∧
    exDb.methods.length = 2 ∧
    delete_contact 99 exDb = (exDb, .error .notFoundError) := by
  exact ⟨rfl, rfl, rfl, rfl, rfl⟩

/-- The two operations that break the no-orphans invariant. -/
def orphanOps : List Op := [Op.create exCreate, Op.del 1]

/-- Claim C3 is refuted by the code: after creating a contact with methods
and then deleting it, the reached state contains method rows whose
`contact_id` references no contact row (the missing foreign-key pragma
leaves them orphaned). -/
theorem reachable_orphaned_methods :
    hasOrphan (runOps DB.init orphanOps) = true := by
  exact rfl

/-- Witness for C4 at contact 1 of `exDb` with `mixBody`. -/
theorem update_replaces_methods_witness :
    ∃ v, (update_contact 1 mixBody exDb).2 = .ok v ∧
      methodPairs (update_contact 1 mixBody exDb).1 1 =
        (([⟨some "phone", some "777"⟩, ⟨some "bad", none⟩] :
            List MethodInput).filter validEntry).map
          (fun m => (m.type.getD "", m.value.getD "")) ∧
      ∃ c, findContact (update_contact 1 mixBody exDb).1 1 = some c ∧
        c.name = strip (mixBody.name.getD "") ∧
        c.address = mixBody.address.map strip :=
  update_replaces_methods 1 mixBody exDb _ rfl (by decide) (by decide)

/-- Witness for C5 at `badBody` on the fresh store. -/
theorem create_invalid_rejected_witness :
    (∃ msg, (add_contact badBody DB.init).2 = .error (.validationError msg)) ∧
    (add_contact badBody DB.init).1 = DB.init :=
  create_invalid_rejected badBody DB.init
    (Or.inr (Or.inr (Or.inr (Or.inr
      ⟨[⟨some "phone", none⟩], ⟨some "phone", none⟩, rfl,
        List.mem_singleton.mpr rfl, rfl⟩))))

/-- Witness for C6 at `exCreate` on the fresh store. -/
theorem create_valid_unfavorited_echo_witness :
    ∃ v, (add_contact exCreate DB.init).2 = .ok v ∧ v.is_favorite = false ∧
      v.methods.length = exMs.length :=
  create_valid_unfavorited_echo exCreate DB.init exMs rfl (by decide)
    (by decide) (by decide)

/-- The single operation reaching the state used by the C7 witness. -/
def w7ops : List Op := [Op.create exCreate]

/-- Witness for C7: toggling contact 1 twice on the reached state restores
the fetched row, and toggling on an empty store is a no-op failure. -/
theorem toggle_twice_restores_witness :
    findContact (toggle_favorite 1
        (toggle_favorite 1 (runOps DB.init w7ops)).1).1 1 =
      some ⟨1, "Alice", some "1 Main St", 0⟩ ∧
    toggle_favorite 1 DB.init = (DB.init, .error .notFoundError) :=
  ⟨(toggle_twice_restores 1).1 w7ops ⟨1, "Alice", some "1 Main St", 0⟩ (by decide),
   (toggle_twice_restores 1).2 DB.init rfl⟩

/-- Witness for C9 at `absBody` on contact 1 of `exDb`. -/
theorem update_absent_methods_clears_witness :
    (∃ v, (update_contact 1 absBody exDb).2 = .ok v) ∧
    methodPairs (update_contact 1 absBody exDb).1 1 = [] :=
  update_absent_methods_clears 1 absBody exDb rfl (by decide) (by decide)

/-- Witness for C10 at `mixBody` on contact 1 of `exDb`: the echoed list has
two entries while only one pair is persisted. -/
theorem update_echoes_raw_methods_witness :
    ∃ v, (update_contact 1 mixBody exDb).2 = .ok v ∧
      v.methods = [⟨some "phone", some "777"⟩, ⟨some "bad", none⟩] ∧
      methodPairs (update_contact 1 mixBody exDb).1 1 =
        (([⟨some "phone", some "777"⟩, ⟨some "bad", none⟩] :
            List MethodInput).filter validEntry).map
          (fun m => (m.type.getD "", m.value.getD "")) :=
  update_echoes_raw_methods 1 mixBody exDb _ rfl (by decide) (by decide)

/-- The three CSV rows of the spec's worked import example. -/
def aliceRow : CsvRow := ⟨some "Alice", some "555-1111", some "a@x.com", some "1 Main St"⟩

/-- A CSV row whose name trims to the empty string. -/
def blankRow : CsvRow := ⟨some " ", some "x", some "y", some "z"⟩

/-- A CSV row with only an email. -/
def bobRow : CsvRow := ⟨some "Bob", some "", some "b@x.com", some ""⟩

/-- The example CSV payload. -/
def csvRows : List CsvRow := [aliceRow, blankRow, bobRow]

/-- Witness for C8 on the spec's worked example: count 2, the blank row a
no-op, and Bob's row inserting one contact and one email method. -/
theorem import_rows_spec_witness :
    (import_contacts DB.init csvRows).2 =
      (csvRows.filter (fun r => !(strip (r.name.getD "") == ""))).length ∧
    importRow DB.init 0 blankRow = (DB.init, 0) ∧
    ((importRow DB.init 1 bobRow).2 = 1 + 1 ∧
     (importRow DB.init 1 bobRow).1.contacts = DB.init.contacts ++
       [⟨DB.init.nextContactId, strip (bobRow.name.getD ""),
         (if strip (bobRow.address.getD "") = "" then none
          else some (strip (bobRow.address.getD ""))), 0⟩] ∧
     (importRow DB.init 1 bobRow).1.methods.map trip = DB.init.methods.map trip ++
       ((if strip (bobRow.phone.getD "") = "" then []
         else [(DB.init.nextContactId, "phone", strip (bobRow.phone.getD ""))]) ++
        (if strip (bobRow.email.getD "") = "" then []
         else [(DB.init.nextContactId, "email", strip (bobRow.email.getD ""))]) ++
        (if strip (bobRow.address.getD "") = "" then []
         else [(DB.init.nextContactId, "address", strip (bobRow.address.getD ""))]))) :=
  ⟨import_rows_spec.1 DB.init csvRows,
   import_rows_spec.2.1 DB.init 0 blankRow (by decide),
   import_rows_spec.2.2 DB.init 1 bobRow (by decide)⟩

end Phonebook
